import Mathlib

/-!
Shallow embedding of the ArdunixNix6 nixie-clock firmware components that the
specification talks about:

* `ClockButton` (src/ardunixFade9_4_digit/ClockButton.cpp): debounced button
  with held-duration level flags and one-shot release flags.
* `Transition` (src/ardunixFade9_6_digit/Transition.cpp): message overlay
  animation engine acting on the global 6-digit buffer `NumberArray`, the
  per-digit mode buffer `displayType` and the global `scrollback` flag.

C `unsigned long` is 32-bit on the AVR target; it is modelled as `Nat` with
subtraction and the `getEnd` sum reduced mod `2 ^ 32`.  C `byte` is `uint8_t`,
modelled as `Nat` (conversions from `int` reduce mod 256).
-/

namespace Ardunix

/-- Modulus of the 32-bit `unsigned long` arithmetic on the AVR target. -/
def MOD32 : Nat := 2 ^ 32

/-- C `unsigned long` subtraction `a - b` (wraps mod `2 ^ 32`). -/
def usub32 (a b : Nat) : Nat := (a % MOD32 + (MOD32 - b % MOD32)) % MOD32

/-- C conversion of an `int` value to `byte` (`uint8_t`): reduce mod 256. -/
def toByte (i : Int) : Nat := (i % 256).toNat

/-! ## ClockButton (src/ardunixFade9_4_digit/ClockButton.cpp) -/

/-- State of one `ClockButton` object: the debounce counter, the press-start
timestamp, the four held-duration level flags and the four one-shot release
flags (the `_inputPin`/`_activeLow` configuration fields play no role in the
logic and are omitted; the pin reading is an input of each step). -/
structure ClockButtonState where
  button1PressedCount : Nat
  button1PressStartMillis : Nat
  buttonWasReleased : Bool
  buttonPress8S : Bool
  buttonPress2S : Bool
  buttonPress1S : Bool
  buttonPress : Bool
  buttonPressRelease8S : Bool
  buttonPressRelease2S : Bool
  buttonPressRelease1S : Bool
  buttonPressRelease : Bool
deriving DecidableEq, Repr

/-- `const byte debounceCounter = 5` — number of successive reads before the
switch counts as down. -/
def debounceCounter : Nat := 5

/-- Initial state: all counters zero, all flags false (the C field
initialisers). -/
def initButtonState : ClockButtonState :=
  { button1PressedCount := 0
    button1PressStartMillis := 0
    buttonWasReleased := false
    buttonPress8S := false
    buttonPress2S := false
    buttonPress1S := false
    buttonPress := false
    buttonPressRelease8S := false
    buttonPressRelease2S := false
    buttonPressRelease1S := false
    buttonPressRelease := false }

/-- `ClockButton::checkButtonInternal(nowMillis)`.  `pinLow` is the value of
`digitalRead(_inputPin) == 0` (the button reads active-low: 0 = pressed). -/
def checkButtonInternal (pinLow : Bool) (nowMillis : Nat)
    (s : ClockButtonState) : ClockButtonState :=
  if pinLow then
    if s.button1PressedCount < debounceCounter then
      -- consecutive pressed reads; at the debounce point record the start time
      let cnt := s.button1PressedCount + 1
      { s with
        buttonWasReleased := false
        button1PressedCount := cnt
        button1PressStartMillis :=
          if cnt = debounceCounter then nowMillis else s.button1PressStartMillis }
    else
      -- pressed and held: recompute the level flags from the held duration
      let held := usub32 nowMillis s.button1PressStartMillis
      if held > 8000 then
        { s with buttonWasReleased := false
                 buttonPress8S := true, buttonPress2S := true
                 buttonPress1S := true, buttonPress := true }
      else if held > 2000 then
        { s with buttonWasReleased := false
                 buttonPress8S := false, buttonPress2S := true
                 buttonPress1S := true, buttonPress := true }
      else if held > 1000 then
        { s with buttonWasReleased := false
                 buttonPress8S := false, buttonPress2S := false
                 buttonPress1S := true, buttonPress := true }
      else
        { s with buttonWasReleased := false
                 buttonPress8S := false, buttonPress2S := false
                 buttonPress1S := false, buttonPress := true }
  else
    -- released: if a debounced press was in progress, fire one release flag
    let s1 :=
      if s.button1PressedCount = debounceCounter then
        let s0 := { s with buttonWasReleased := true
                           buttonPressRelease8S := false
                           buttonPressRelease2S := false
                           buttonPressRelease1S := false
                           buttonPressRelease := false }
        if s.buttonPress8S then { s0 with buttonPressRelease8S := true }
        else if s.buttonPress2S then { s0 with buttonPressRelease2S := true }
        else if s.buttonPress1S then { s0 with buttonPressRelease1S := true }
        else if s.buttonPress then { s0 with buttonPressRelease := true }
        else s0
      else s
    { s1 with buttonPress8S := false, buttonPress2S := false
              buttonPress1S := false, buttonPress := false
              button1PressedCount := 0 }

/-- `ClockButton::resetInternal()`. -/
def resetInternal (s : ClockButtonState) : ClockButtonState :=
  { s with buttonPressRelease8S := false, buttonPressRelease2S := false
           buttonPressRelease1S := false, buttonPressRelease := false
           buttonPress8S := false, buttonPress2S := false
           buttonPress1S := false, buttonPress := false
           button1PressedCount := 0 }

/-- `ClockButton::isButtonPressedNow()`. -/
def isButtonPressedNow (s : ClockButtonState) : Bool :=
  s.button1PressedCount == debounceCounter

/-- `ClockButton::isButtonPressed()`. -/
def isButtonPressed (s : ClockButtonState) : Bool := s.buttonPress

/-- `ClockButton::isButtonPressed1S()`. -/
def isButtonPressed1S (s : ClockButtonState) : Bool := s.buttonPress1S

/-- `ClockButton::isButtonPressed2S()`. -/
def isButtonPressed2S (s : ClockButtonState) : Bool := s.buttonPress2S

/-- `ClockButton::isButtonPressed8S()`. -/
def isButtonPressed8S (s : ClockButtonState) : Bool := s.buttonPress8S

/-- `ClockButton::isButtonPressedAndReleased()`: reads and clears the one-shot
flag, returning the value read together with the successor state. -/
def isButtonPressedAndReleased (s : ClockButtonState) :
    Bool × ClockButtonState :=
  if s.buttonPressRelease then (true, { s with buttonPressRelease := false })
  else (false, s)

/-- `ClockButton::isButtonPressedReleased1S()`. -/
def isButtonPressedReleased1S (s : ClockButtonState) :
    Bool × ClockButtonState :=
  if s.buttonPressRelease1S then
    (true, { s with buttonPressRelease1S := false })
  else (false, s)

/-- `ClockButton::isButtonPressedReleased2S()`. -/
def isButtonPressedReleased2S (s : ClockButtonState) :
    Bool × ClockButtonState :=
  if s.buttonPressRelease2S then
    (true, { s with buttonPressRelease2S := false })
  else (false, s)

/-- `ClockButton::isButtonPressedReleased8S()`. -/
def isButtonPressedReleased8S (s : ClockButtonState) :
    Bool × ClockButtonState :=
  if s.buttonPressRelease8S then
    (true, { s with buttonPressRelease8S := false })
  else (false, s)

/-- One externally visible call on a `ClockButton`: a periodic
`checkButton(now)` tick with a given pin reading, a `reset()`, or one of the
four state-mutating release accessors. -/
inductive ButtonEvent where
  | check (pinLow : Bool) (now : Nat)
  | reset
  | readReleased
  | readReleased1S
  | readReleased2S
  | readReleased8S
deriving DecidableEq, Repr

/-- State transition of one `ButtonEvent` (accessor return values dropped). -/
def buttonStep (e : ButtonEvent) (s : ClockButtonState) : ClockButtonState :=
  match e with
  | .check pinLow now => checkButtonInternal pinLow now s
  | .reset => resetInternal s
  | .readReleased => (isButtonPressedAndReleased s).2
  | .readReleased1S => (isButtonPressedReleased1S s).2
  | .readReleased2S => (isButtonPressedReleased2S s).2
  | .readReleased8S => (isButtonPressedReleased8S s).2

/-- Run a sequence of calls from the initial state. -/
def runButton (es : List ButtonEvent) : ClockButtonState :=
  es.foldl (fun s e => buttonStep e s) initButtonState

/-- The `ClockButton` state invariant: the debounce counter never exceeds the
threshold, the level flags are monotonically nested, and at most one one-shot
release flag is set. -/
def buttonInv (s : ClockButtonState) : Prop :=
  s.button1PressedCount ≤ debounceCounter ∧
  (s.buttonPress8S = true → s.buttonPress2S = true) ∧
  (s.buttonPress2S = true → s.buttonPress1S = true) ∧
  (s.buttonPress1S = true → s.buttonPress = true) ∧
  s.buttonPressRelease8S.toNat + s.buttonPressRelease2S.toNat +
    s.buttonPressRelease1S.toNat + s.buttonPressRelease.toNat ≤ 1

instance (s : ClockButtonState) : Decidable (buttonInv s) := by
  unfold buttonInv; infer_instance

/-- All four held-duration level flags are clear. -/
def levelFlagsClear (s : ClockButtonState) : Prop :=
  s.buttonPress = false ∧ s.buttonPress1S = false ∧
  s.buttonPress2S = false ∧ s.buttonPress8S = false

instance (s : ClockButtonState) : Decidable (levelFlagsClear s) := by
  unfold levelFlagsClear; infer_instance

/-- A state with a debounced press just in progress: counter at the
threshold, press start at 0, all flags clear. -/
def heldState : ClockButtonState :=
  { initButtonState with button1PressedCount := 5 }

/-- A debounced press held past the 1-second tier: counter at the threshold,
`pressed` and `1s` level flags set. -/
def heldState1S : ClockButtonState :=
  { initButtonState with button1PressedCount := 5
                         buttonPress := true, buttonPress1S := true }

/-- Four consecutive pressed ticks: brings the debounce counter to 4, one
short of the threshold. -/
def fourTicks : List ButtonEvent :=
  [ButtonEvent.check true 0, ButtonEvent.check true 0,
   ButtonEvent.check true 0, ButtonEvent.check true 0]

/-! ## Transition (src/ardunixFade9_6_digit/Transition.cpp) -/

/-- Display mode `BLANKED` from DisplayDefs.h. -/
def BLANKED : Nat := 0

/-- Display mode `FADE` from DisplayDefs.h (the default per-digit mode). -/
def FADE : Nat := 2

/-- State of one `Transition` object together with the three globals it works
on: the digit buffer `NumberArray`, the per-digit mode buffer `displayType`
and the `scrollback` flag (all `extern` in Transition.h).  The C field `_end`
is named `endTime` because `end` is reserved in Lean; `byte` buffer cells are
`Nat`.  The durations are C `int` constructor arguments, nonnegative in every
call the firmware makes, so they are modelled as `Nat`. -/
@[ext]
structure TransitionState where
  effectInDuration : Nat
  effectOutDuration : Nat
  holdDuration : Nat
  started : Nat
  endTime : Nat
  regularDisplay : Fin 6 → Nat
  alternateDisplay : Fin 6 → Nat
  savedScrollback : Bool
  savedDisplayType : Fin 6 → Nat
  NumberArray : Fin 6 → Nat
  displayType : Fin 6 → Nat
  scrollback : Bool

/-- `Transition::getEnd()`: `_started + _effectInDuration * 2 + _holdDuration
+ _effectOutDuration * 2` in `unsigned long` arithmetic. -/
def getEnd (s : TransitionState) : Nat :=
  (s.started + s.effectInDuration * 2 + s.holdDuration +
    s.effectOutDuration * 2) % MOD32

/-- `Transition::saveCurrentDisplayType()`: snapshot `displayType` and
`scrollback`, then force `scrollback` off. -/
def saveCurrentDisplayType (s : TransitionState) : TransitionState :=
  { s with savedDisplayType := s.displayType
           savedScrollback := s.scrollback
           scrollback := false }

/-- `Transition::restoreCurrentDisplayType()`. -/
def restoreCurrentDisplayType (s : TransitionState) : TransitionState :=
  { s with displayType := s.savedDisplayType
           scrollback := s.savedScrollback }

/-- `Transition::start(now)`: guarded by `_end < now`; on success records
`_started`, recomputes `_end` and snapshots the display type state. -/
def start (now : Nat) (s : TransitionState) : TransitionState :=
  if s.endTime < now then
    let s1 := { s with started := now }
    let s2 := { s1 with endTime := getEnd s1 }
    saveCurrentDisplayType s2
  else s

/-- `Transition::isMessageOnDisplay(now)`: `now < _end`. -/
def isMessageOnDisplay (now : Nat) (s : TransitionState) : Bool :=
  decide (now < s.endTime)

/-- `Transition::updateRegularDisplaySeconds(seconds)`. -/
def updateRegularDisplaySeconds (seconds : Nat) (s : TransitionState) :
    TransitionState :=
  { s with regularDisplay := fun i =>
      if (i : Nat) = 5 then seconds % 10
      else if (i : Nat) = 4 then seconds / 10
      else s.regularDisplay i }

/-- `Transition::setRegularValues()`. -/
def setRegularValues (s : TransitionState) : TransitionState :=
  { s with regularDisplay := s.NumberArray }

/-- `Transition::setAlternateValues()`. -/
def setAlternateValues (s : TransitionState) : TransitionState :=
  { s with alternateDisplay := s.NumberArray }

/-- `Transition::loadRegularValues()`. -/
def loadRegularValues (s : TransitionState) : TransitionState :=
  { s with NumberArray := s.regularDisplay }

/-- `Transition::loadAlternateValues()`. -/
def loadAlternateValues (s : TransitionState) : TransitionState :=
  { s with NumberArray := s.alternateDisplay }

/-- `Transition::scroll(byte count)`.  The parameter has C type `byte`
(unsigned 8-bit), so the source's `if (count < 0)` test can never succeed and
`offset = 0`, `slope = 1` always.  The loop then blanks `displayType[i]` for
`i < count` and assigns `NumberArray[i] = copy[i - count]` for `i ≥ count`,
where `copy` is the entry value of `NumberArray` (cells with `i < count` keep
their old digit value). -/
def scroll (count : Nat) (s : TransitionState) : TransitionState :=
  { s with
    displayType := fun i =>
      if (i : Nat) < count then BLANKED else s.displayType i
    NumberArray := fun i =>
      if count ≤ (i : Nat) then
        s.NumberArray ⟨(i : Nat) - count,
          Nat.lt_of_le_of_lt (Nat.sub_le _ _) i.isLt⟩
      else s.NumberArray i }

/-- The scroll operation as the specification words it, with a signed count:
shift the 6-slot digit buffer by `|count|` positions in the sign-indicated
direction, set the display mode of every vacated slot to `BLANKED`, and drop
values shifted beyond the 6 slots.  Stated only for comparison with the
source's `scroll`, whose `byte` parameter makes its negative
(`offset = 5, slope = -1`) branch unreachable; for `count ≥ 0` this is
exactly the source's positive branch, for `count < 0` the mirror image that
the dead branch describes. -/
def scrollSigned (count : Int) (s : TransitionState) : TransitionState :=
  if 0 ≤ count then scroll count.toNat s
  else
    let c := (-count).toNat
    { s with
      displayType := fun i =>
        if 6 - c ≤ (i : Nat) then BLANKED else s.displayType i
      NumberArray := fun i =>
        if h : (i : Nat) + c < 6 then s.NumberArray ⟨(i : Nat) + c, h⟩
        else s.NumberArray i }

/-- `Transition::hash(unsigned long x)`: two multiply-xor-shift rounds in
32-bit arithmetic, then a final xor-shift. -/
def hash (x : Nat) : Nat :=
  let x0 := x % MOD32
  let x1 := ((x0 >>> 16) ^^^ x0) * 0x45d9f3b % MOD32
  let x2 := ((x1 >>> 16) ^^^ x1) * 0x45d9f3b % MOD32
  (x2 >>> 16) ^^^ x2

/-- `Transition::scramble(msCount, start, end)`: overwrite `NumberArray[i]`
with `hash(msCount / 20 + i) % 10` for `start ≤ i < end`.  Each loop
iteration is independent of the buffer contents, so the loop is a pointwise
map; `msCount` is nonnegative in every call (`now - _started` of a running
session). -/
def scramble (msCount start endW : Nat) (s : TransitionState) :
    TransitionState :=
  { s with NumberArray := fun i =>
      if start ≤ (i : Nat) ∧ (i : Nat) < endW then
        hash (msCount / 20 + (i : Nat)) % 10
      else s.NumberArray i }

/-- `Transition::scrollMsg(now)`.  `msCount` has C type `int`; inside a
running session it equals `now - _started` and stays far below `2 ^ 15` for
the durations the firmware configures, so the C `int` arithmetic agrees with
`Nat` arithmetic here.  The C truncating division `-(a) * 6 / e` of a
nonnegative `a` equals `-(a * 6 / e)`, so each scroll argument is computed as
a nonnegative quotient `q` first and converted to `byte` at the call exactly
as the C call converts its `int` argument. -/
def scrollMsg (now : Nat) (s : TransitionState) : Bool × TransitionState :=
  if now < s.endTime then
    let msCount := usub32 now s.started
    let s1 :=
      if msCount < s.effectInDuration then
        -- Scroll -1 -> -6
        let q := (msCount % s.effectInDuration) * 6 / s.effectInDuration
        scroll (toByte (-(q : Int) - 1)) (loadRegularValues s)
      else if msCount < s.effectInDuration * 2 then
        -- Scroll 5 -> 0
        let q := (msCount % s.effectInDuration) * 6 / s.effectInDuration
        scroll (toByte (5 - (q : Int))) (loadAlternateValues s)
      else if msCount < s.effectInDuration * 2 + s.holdDuration then
        loadAlternateValues s
      else if msCount < s.effectInDuration * 2 + s.holdDuration +
          s.effectOutDuration then
        -- Scroll 1 -> 6
        let q := ((msCount - s.holdDuration) % s.effectOutDuration) * 6 /
          s.effectOutDuration
        scroll (toByte ((q : Int) + 1)) (loadAlternateValues s)
      else if msCount < s.effectInDuration * 2 + s.holdDuration +
          s.effectOutDuration * 2 then
        -- Scroll 0 -> -5
        let q := ((msCount - s.holdDuration) % s.effectOutDuration) * 6 /
          s.effectOutDuration
        scroll (toByte ((q : Int) - 5)) (loadRegularValues s)
      else s
    (true, s1)
  else (false, s)

/-- `Transition::scrambleMsg(now)` (same session phases as `scrollMsg`). -/
def scrambleMsg (now : Nat) (s : TransitionState) : Bool × TransitionState :=
  if now < s.endTime then
    let msCount := usub32 now s.started
    let s1 :=
      if msCount < s.effectInDuration then
        let q := (msCount % s.effectInDuration) * 6 / s.effectInDuration
        scramble msCount (5 - q) 6 (loadRegularValues s)
      else if msCount < s.effectInDuration * 2 then
        let q := (msCount % s.effectInDuration) * 6 / s.effectInDuration
        scramble msCount 0 (5 - q) (loadAlternateValues s)
      else if msCount < s.effectInDuration * 2 + s.holdDuration then
        loadAlternateValues s
      else if msCount < s.effectInDuration * 2 + s.holdDuration +
          s.effectOutDuration then
        let q := ((msCount - s.holdDuration) % s.effectOutDuration) * 6 /
          s.effectOutDuration
        scramble msCount 0 (q + 1) (loadAlternateValues s)
      else if msCount < s.effectInDuration * 2 + s.holdDuration +
          s.effectOutDuration * 2 then
        let q := ((msCount - s.holdDuration) % s.effectOutDuration) * 6 /
          s.effectOutDuration
        scramble msCount (q + 1) 6 (loadRegularValues s)
      else s
    (true, s1)
  else (false, s)

/-- `Transition::scrollInScrambleOut(now)`: scroll phases on the way in (with
a `restoreCurrentDisplayType()` at the start of the second phase), scramble
phases on the way out. -/
def scrollInScrambleOut (now : Nat) (s : TransitionState) :
    Bool × TransitionState :=
  if now < s.endTime then
    let msCount := usub32 now s.started
    let s1 :=
      if msCount < s.effectInDuration then
        let q := (msCount % s.effectInDuration) * 6 / s.effectInDuration
        scroll (toByte (-(q : Int) - 1)) (loadRegularValues s)
      else if msCount < s.effectInDuration * 2 then
        let q := (msCount % s.effectInDuration) * 6 / s.effectInDuration
        scroll (toByte (5 - (q : Int)))
          (loadAlternateValues (restoreCurrentDisplayType s))
      else if msCount < s.effectInDuration * 2 + s.holdDuration then
        loadAlternateValues s
      else if msCount < s.effectInDuration * 2 + s.holdDuration +
          s.effectOutDuration then
        let q := ((msCount - s.holdDuration) % s.effectOutDuration) * 6 /
          s.effectOutDuration
        scramble msCount 0 (q + 1) (loadAlternateValues s)
      else if msCount < s.effectInDuration * 2 + s.holdDuration +
          s.effectOutDuration * 2 then
        let q := ((msCount - s.holdDuration) % s.effectOutDuration) * 6 /
          s.effectOutDuration
        scramble msCount (q + 1) 6 (loadRegularValues s)
      else s
    (true, s1)
  else (false, s)

/-- Example `Transition` state: a session built with `effectIn = 300`,
`hold = 1000`, `effectOut = 300` started at 0 (so `_end = 2200`), live digits
`1..6`, all modes `FADE`, scrollback on. -/
def exTransition : TransitionState :=
  { effectInDuration := 300
    effectOutDuration := 300
    holdDuration := 1000
    started := 0
    endTime := 2200
    regularDisplay := fun _ => 0
    alternateDisplay := fun _ => 0
    savedScrollback := false
    savedDisplayType := fun _ => FADE
    NumberArray := fun i => (i : Nat) + 1
    displayType := fun _ => FADE
    scrollback := true }

/-! ## Theorems -/

theorem usub32_eq_sub (a b : Nat) (hba : b ≤ a) (ha : a < MOD32) :
    usub32 a b = a - b := by
  unfold usub32 MOD32 at *
  omega

theorem buttonInv_init : buttonInv initButtonState := by decide

theorem buttonInv_step (e : ButtonEvent) (s : ClockButtonState)
    (h : buttonInv s) : buttonInv (buttonStep e s) := by
  obtain ⟨h5, h82, h21, h1p, hrel⟩ := h
  cases e <;>
    simp only [buttonStep, checkButtonInternal, resetInternal,
      isButtonPressedAndReleased, isButtonPressedReleased1S,
      isButtonPressedReleased2S, isButtonPressedReleased8S, buttonInv] <;>
    repeat' split
  all_goals refine ⟨?_, ?_, ?_, ?_, ?_⟩ <;> dsimp only <;>
    first
      | omega
      | assumption
      | (simp_all [Bool.toNat_false, Bool.toNat_true] <;> omega)

theorem buttonInv_foldl (es : List ButtonEvent) (s : ClockButtonState)
    (h : buttonInv s) : buttonInv (es.foldl (fun s e => buttonStep e s) s) := by
  induction es generalizing s with
  | nil => exact h
  | cons e es ih => exact ih _ (buttonInv_step e s h)

theorem levelFlagsClear_step (e : ButtonEvent) (s : ClockButtonState)
    (h : s.button1PressedCount < debounceCounter → levelFlagsClear s) :
    (buttonStep e s).button1PressedCount < debounceCounter →
      levelFlagsClear (buttonStep e s) := by
  cases e <;>
    simp only [buttonStep, checkButtonInternal, resetInternal,
      isButtonPressedAndReleased, isButtonPressedReleased1S,
      isButtonPressedReleased2S, isButtonPressedReleased8S,
      levelFlagsClear] <;>
    repeat' split
  all_goals intro hc
  all_goals try dsimp only at hc
  all_goals try dsimp only
  all_goals first
    | exact ⟨rfl, rfl, rfl, rfl⟩
    | exact ⟨trivial, trivial, trivial, trivial⟩
    | exact h (by omega)
    | exact absurd hc (by assumption)

theorem levelFlagsClear_foldl (es : List ButtonEvent) (s : ClockButtonState)
    (h : s.button1PressedCount < debounceCounter → levelFlagsClear s) :
    (es.foldl (fun s e => buttonStep e s) s).button1PressedCount <
        debounceCounter →
      levelFlagsClear (es.foldl (fun s e => buttonStep e s) s) := by
  induction es generalizing s with
  | nil => exact h
  | cons e es ih => exact ih _ (levelFlagsClear_step e s h)

theorem levelFlagsClear_runButton (es : List ButtonEvent) :
    (runButton es).button1PressedCount < debounceCounter →
      levelFlagsClear (runButton es) :=
  levelFlagsClear_foldl es initButtonState (fun _ => by decide)

/-- Claim C9: starting from the initial `ClockButton` state, every sequence
of `checkButton`, `reset` and accessor calls keeps the debounce counter in
`0..debounceCounter`, keeps the level flags monotonically nested
(`8s ⇒ 2s ⇒ 1s ⇒ pressed`) and keeps at most one one-shot release flag set;
moreover a further pressed `checkButton` from a counter already at the
threshold saturates it there rather than growing it. -/
theorem button_invariants_hold :
    (∀ es : List ButtonEvent, buttonInv (runButton es)) ∧
    (∀ (s : ClockButtonState) (now : Nat),
      s.button1PressedCount = debounceCounter →
      (checkButtonInternal true now s).button1PressedCount = debounceCounter) := by
  constructor
  · exact fun es => buttonInv_foldl es initButtonState buttonInv_init
  · intro s now h5
    simp only [checkButtonInternal]
    rw [if_pos trivial, if_neg (by omega)]
    repeat' split
    all_goals dsimp only
    all_goals exact h5

/-- Witness for `button_invariants_hold` at a concrete call sequence and a
concrete saturated state. -/
theorem button_invariants_hold_witness :
    buttonInv (runButton [ButtonEvent.check true 0, ButtonEvent.check true 1,
      ButtonEvent.check true 2, ButtonEvent.check true 3,
      ButtonEvent.check true 4, ButtonEvent.check true 1500,
      ButtonEvent.check false 1600, ButtonEvent.readReleased1S]) ∧
    heldState.button1PressedCount = debounceCounter ∧
    (checkButtonInternal true 9000 heldState).button1PressedCount =
      debounceCounter :=
  ⟨button_invariants_hold.1 _, rfl, button_invariants_hold.2 heldState 9000 rfl⟩

/-- Claim C2 counterexample: with a debounced press in progress
(`pressStart = 0`) a pressed `checkButton` at `now = 1000` has
`held = 1000`, which the claim places in the `[1000, 2000)` tier (`pressed`
and `1s` both set), but the source's strict `held > 1000` comparison leaves
the `1s` flag false there. -/
theorem checkButton_held_boundary_cex :
    runButton [ButtonEvent.check true 0, ButtonEvent.check true 0,
      ButtonEvent.check true 0, ButtonEvent.check true 0,
      ButtonEvent.check true 0] = heldState ∧
    (checkButtonInternal true 1000 heldState).buttonPress = true ∧
    (checkButtonInternal true 1000 heldState).buttonPress1S = false := by
  decide

/-- Claim C2 (amended): while a debounced press is in progress the level
flags follow strict thresholds on `held = now - pressStart`: `pressed` is
always set, `1s` exactly when `held > 1000`, `2s` exactly when
`held > 2000`, `8s` exactly when `held > 8000` — so the tiers are
`[0, 1000]` pressed only, `(1000, 2000]` pressed+1s, `(2000, 8000]`
pressed+1s+2s, `(8000, ∞)` all four. -/
theorem checkButton_held_levels (s : ClockButtonState) (now : Nat)
    (h5 : s.button1PressedCount = debounceCounter)
    (hb : s.button1PressStartMillis ≤ now) (hn : now < MOD32) :
    (checkButtonInternal true now s).buttonPress = true ∧
    (checkButtonInternal true now s).buttonPress1S =
      decide (1000 < now - s.button1PressStartMillis) ∧
    (checkButtonInternal true now s).buttonPress2S =
      decide (2000 < now - s.button1PressStartMillis) ∧
    (checkButtonInternal true now s).buttonPress8S =
      decide (8000 < now - s.button1PressStartMillis) := by
  have hu := usub32_eq_sub now s.button1PressStartMillis hb hn
  simp only [checkButtonInternal, hu]
  rw [if_pos trivial, if_neg (by omega)]
  repeat' split
  all_goals refine ⟨rfl, ?_, ?_, ?_⟩
  all_goals simp_all
  all_goals omega

/-- Witness for `checkButton_held_levels` at `held = 2500` (the 2s tier). -/
theorem checkButton_held_levels_witness :
    heldState.button1PressedCount = debounceCounter ∧
    heldState.button1PressStartMillis ≤ 2500 ∧ 2500 < MOD32 ∧
    ((checkButtonInternal true 2500 heldState).buttonPress = true ∧
     (checkButtonInternal true 2500 heldState).buttonPress1S =
       decide (1000 < 2500 - heldState.button1PressStartMillis) ∧
     (checkButtonInternal true 2500 heldState).buttonPress2S =
       decide (2000 < 2500 - heldState.button1PressStartMillis) ∧
     (checkButtonInternal true 2500 heldState).buttonPress8S =
       decide (8000 < 2500 - heldState.button1PressStartMillis)) :=
  ⟨rfl, by decide, by decide,
    checkButton_held_levels heldState 2500 rfl (by decide) (by decide)⟩

/-- Claim C3 counterexample: when the pin is released on the very next tick
after the counter reached the threshold, no level flag is yet set, so the
release path sets zero one-shot release flags — not exactly one. -/
theorem checkButton_release_none_cex :
    runButton [ButtonEvent.check true 1, ButtonEvent.check true 2,
      ButtonEvent.check true 3, ButtonEvent.check true 4,
      ButtonEvent.check true 0] = heldState ∧
    (checkButtonInternal false 6 heldState).buttonPressRelease8S.toNat +
      (checkButtonInternal false 6 heldState).buttonPressRelease2S.toNat +
      (checkButtonInternal false 6 heldState).buttonPressRelease1S.toNat +
      (checkButtonInternal false 6 heldState).buttonPressRelease.toNat = 0 := by
  decide

/-- Claim C3 (amended): on a release tick ending a debounced press the
one-shot release flag of the highest level flag currently true is set
(priority 8s > 2s > 1s > pressed) and the others are cleared — exactly one
when at least one level flag is true, and none when the press is released
before any held tick has set a level flag; all level flags are cleared and
the counter resets to 0; and each release accessor delivers true at most
once: a second consecutive call of the same accessor always returns
false. -/
theorem checkButton_release_fires_highest (s : ClockButtonState) (now : Nat)
    (h5 : s.button1PressedCount = debounceCounter) :
    (checkButtonInternal false now s).buttonPressRelease8S = s.buttonPress8S ∧
    (checkButtonInternal false now s).buttonPressRelease2S =
      (!s.buttonPress8S && s.buttonPress2S) ∧
    (checkButtonInternal false now s).buttonPressRelease1S =
      (!s.buttonPress8S && !s.buttonPress2S && s.buttonPress1S) ∧
    (checkButtonInternal false now s).buttonPressRelease =
      (!s.buttonPress8S && !s.buttonPress2S && !s.buttonPress1S &&
        s.buttonPress) ∧
    levelFlagsClear (checkButtonInternal false now s) ∧
    (checkButtonInternal false now s).button1PressedCount = 0 ∧
    ((s.buttonPress8S || s.buttonPress2S || s.buttonPress1S ||
        s.buttonPress) = true →
      (checkButtonInternal false now s).buttonPressRelease8S.toNat +
        (checkButtonInternal false now s).buttonPressRelease2S.toNat +
        (checkButtonInternal false now s).buttonPressRelease1S.toNat +
        (checkButtonInternal false now s).buttonPressRelease.toNat = 1) ∧
    (∀ t : ClockButtonState,
      (isButtonPressedAndReleased (isButtonPressedAndReleased t).2).1 =
        false) ∧
    (∀ t : ClockButtonState,
      (isButtonPressedReleased1S (isButtonPressedReleased1S t).2).1 =
        false) ∧
    (∀ t : ClockButtonState,
      (isButtonPressedReleased2S (isButtonPressedReleased2S t).2).1 =
        false) ∧
    (∀ t : ClockButtonState,
      (isButtonPressedReleased8S (isButtonPressedReleased8S t).2).1 =
        false) := by
  have hA : ∀ t : ClockButtonState,
      (isButtonPressedAndReleased (isButtonPressedAndReleased t).2).1 =
        false := by
    intro t; unfold isButtonPressedAndReleased; split <;> simp_all
  have hB : ∀ t : ClockButtonState,
      (isButtonPressedReleased1S (isButtonPressedReleased1S t).2).1 =
        false := by
    intro t; unfold isButtonPressedReleased1S; split <;> simp_all
  have hC : ∀ t : ClockButtonState,
      (isButtonPressedReleased2S (isButtonPressedReleased2S t).2).1 =
        false := by
    intro t; unfold isButtonPressedReleased2S; split <;> simp_all
  have hD : ∀ t : ClockButtonState,
      (isButtonPressedReleased8S (isButtonPressedReleased8S t).2).1 =
        false := by
    intro t; unfold isButtonPressedReleased8S; split <;> simp_all
  cases hb8 : s.buttonPress8S <;> cases hb2 : s.buttonPress2S <;>
    cases hb1 : s.buttonPress1S <;> cases hbp : s.buttonPress <;>
    refine ⟨?_, ?_, ?_, ?_, ?_, ?_, ?_, hA, hB, hC, hD⟩ <;>
    simp_all [checkButtonInternal, levelFlagsClear, h5]

/-- Witness for `checkButton_release_fires_highest` releasing a press held
into the 1s tier. -/
theorem checkButton_release_fires_highest_witness :
    heldState1S.button1PressedCount = debounceCounter ∧
    ((checkButtonInternal false 3000 heldState1S).buttonPressRelease8S =
       heldState1S.buttonPress8S ∧
     (checkButtonInternal false 3000 heldState1S).buttonPressRelease2S =
       (!heldState1S.buttonPress8S && heldState1S.buttonPress2S) ∧
     (checkButtonInternal false 3000 heldState1S).buttonPressRelease1S =
       (!heldState1S.buttonPress8S && !heldState1S.buttonPress2S &&
         heldState1S.buttonPress1S) ∧
     (checkButtonInternal false 3000 heldState1S).buttonPressRelease =
       (!heldState1S.buttonPress8S && !heldState1S.buttonPress2S &&
         !heldState1S.buttonPress1S && heldState1S.buttonPress) ∧
     levelFlagsClear (checkButtonInternal false 3000 heldState1S) ∧
     (checkButtonInternal false 3000 heldState1S).button1PressedCount = 0 ∧
     ((heldState1S.buttonPress8S || heldState1S.buttonPress2S ||
         heldState1S.buttonPress1S || heldState1S.buttonPress) = true →
       (checkButtonInternal false 3000 heldState1S).buttonPressRelease8S.toNat +
         (checkButtonInternal false 3000 heldState1S).buttonPressRelease2S.toNat +
         (checkButtonInternal false 3000 heldState1S).buttonPressRelease1S.toNat +
         (checkButtonInternal false 3000 heldState1S).buttonPressRelease.toNat =
         1) ∧
     (∀ t : ClockButtonState,
       (isButtonPressedAndReleased (isButtonPressedAndReleased t).2).1 =
         false) ∧
     (∀ t : ClockButtonState,
       (isButtonPressedReleased1S (isButtonPressedReleased1S t).2).1 =
         false) ∧
     (∀ t : ClockButtonState,
       (isButtonPressedReleased2S (isButtonPressedReleased2S t).2).1 =
         false) ∧
     (∀ t : ClockButtonState,
       (isButtonPressedReleased8S (isButtonPressedReleased8S t).2).1 =
         false)) :=
  ⟨rfl, checkButton_release_fires_highest heldState1S 3000 rfl⟩

theorem threshold_tick_aux (s : ClockButtonState) (now nowB nowC : Nat)
    (h4 : s.button1PressedCount = debounceCounter - 1)
    (hf : levelFlagsClear s) :
    (checkButtonInternal true now s).button1PressedCount = debounceCounter ∧
    (checkButtonInternal true now s).button1PressStartMillis = now ∧
    isButtonPressedNow (checkButtonInternal true now s) = true ∧
    isButtonPressed (checkButtonInternal true now s) = false ∧
    levelFlagsClear (checkButtonInternal true now s) ∧
    isButtonPressed (checkButtonInternal true nowB
      (checkButtonInternal true now s)) = true ∧
    (checkButtonInternal false nowC
      (checkButtonInternal true now s)).buttonPressRelease8S = false ∧
    (checkButtonInternal false nowC
      (checkButtonInternal true now s)).buttonPressRelease2S = false ∧
    (checkButtonInternal false nowC
      (checkButtonInternal true now s)).buttonPressRelease1S = false ∧
    (checkButtonInternal false nowC
      (checkButtonInternal true now s)).buttonPressRelease = false := by
  obtain ⟨c, ps, wr, b8, b2, b1, bp, r8, r2, r1, r⟩ := s
  obtain ⟨hp, h1, h2, h8⟩ := hf
  simp only [debounceCounter] at h4 ⊢
  try dsimp only at h4 hp h1 h2 h8
  subst hp h1 h2 h8
  have hc : c = 4 := by omega
  subst hc
  refine ⟨?_, ?_, ?_, ?_, ?_, ?_, ?_, ?_, ?_, ?_⟩ <;>
    simp [checkButtonInternal, isButtonPressedNow, isButtonPressed,
      levelFlagsClear, debounceCounter]
  all_goals ((repeat' split); all_goals try simp)

/-- Claim C10: on the `checkButton` tick at which the debounce counter first
reaches the threshold only the press-start timestamp is recorded and no
level flag is set: `isButtonPressedNow()` already returns true while
`isButtonPressed()` still returns false (until a further pressed tick sets
it); consequently, if the very next tick reads the pin as released, the
release path finds no level flag true and sets no one-shot release flag. -/
theorem threshold_tick_records_start_only (es : List ButtonEvent)
    (now nowB nowC : Nat)
    (h4 : (runButton es).button1PressedCount = debounceCounter - 1) :
    (checkButtonInternal true now (runButton es)).button1PressedCount =
      debounceCounter ∧
    (checkButtonInternal true now (runButton es)).button1PressStartMillis =
      now ∧
    isButtonPressedNow (checkButtonInternal true now (runButton es)) = true ∧
    isButtonPressed (checkButtonInternal true now (runButton es)) = false ∧
    levelFlagsClear (checkButtonInternal true now (runButton es)) ∧
    isButtonPressed (checkButtonInternal true nowB
      (checkButtonInternal true now (runButton es))) = true ∧
    (checkButtonInternal false nowC
      (checkButtonInternal true now (runButton es))).buttonPressRelease8S =
      false ∧
    (checkButtonInternal false nowC
      (checkButtonInternal true now (runButton es))).buttonPressRelease2S =
      false ∧
    (checkButtonInternal false nowC
      (checkButtonInternal true now (runButton es))).buttonPressRelease1S =
      false ∧
    (checkButtonInternal false nowC
      (checkButtonInternal true now (runButton es))).buttonPressRelease =
      false :=
  threshold_tick_aux (runButton es) now nowB nowC h4
    (levelFlagsClear_runButton es (by simp [debounceCounter] at h4 ⊢; omega))

/-- Witness for `threshold_tick_records_start_only` after four concrete
pressed ticks. -/
theorem threshold_tick_records_start_only_witness :
    (runButton fourTicks).button1PressedCount = debounceCounter - 1 ∧
    ((checkButtonInternal true 50 (runButton fourTicks)).button1PressedCount =
       debounceCounter ∧
     (checkButtonInternal true 50
       (runButton fourTicks)).button1PressStartMillis = 50 ∧
     isButtonPressedNow (checkButtonInternal true 50 (runButton fourTicks)) =
       true ∧
     isButtonPressed (checkButtonInternal true 50 (runButton fourTicks)) =
       false ∧
     levelFlagsClear (checkButtonInternal true 50 (runButton fourTicks)) ∧
     isButtonPressed (checkButtonInternal true 60
       (checkButtonInternal true 50 (runButton fourTicks))) = true ∧
     (checkButtonInternal false 70
       (checkButtonInternal true 50 (runButton fourTicks))).buttonPressRelease8S =
       false ∧
     (checkButtonInternal false 70
       (checkButtonInternal true 50 (runButton fourTicks))).buttonPressRelease2S =
       false ∧
     (checkButtonInternal false 70
       (checkButtonInternal true 50 (runButton fourTicks))).buttonPressRelease1S =
       false ∧
     (checkButtonInternal false 70
       (checkButtonInternal true 50 (runButton fourTicks))).buttonPressRelease =
       false) :=
  ⟨by decide, threshold_tick_records_start_only fourTicks 50 60 70 (by decide)⟩

/-- Claim C1 (code bug): `scroll` declares its parameter as `byte`
(unsigned), so its `count < 0` branch is dead and the negative counts that
`scrollMsg`/`scrollInScrambleOut` pass (e.g. `-1`, arriving as byte 255) do
not shift the digit buffer at all: every display-mode slot is blanked
(`i < 255` for all six slots) and no digit moves (`i >= 255` never), instead
of the documented shift-by-one with one vacated blanked slot that
`scrollSigned` performs. -/
theorem scroll_byte_parameter_cex :
    toByte (-1) = 255 ∧
    List.ofFn (scroll (toByte (-1)) exTransition).NumberArray =
      [1, 2, 3, 4, 5, 6] ∧
    List.ofFn (scroll (toByte (-1)) exTransition).displayType =
      [BLANKED, BLANKED, BLANKED, BLANKED, BLANKED, BLANKED] ∧
    List.ofFn (scrollSigned (-1) exTransition).NumberArray =
      [2, 3, 4, 5, 6, 6] ∧
    List.ofFn (scrollSigned (-1) exTransition).displayType =
      [FADE, FADE, FADE, FADE, FADE, BLANKED] ∧
    List.ofFn (scroll 0 exTransition).NumberArray = [1, 2, 3, 4, 5, 6] ∧
    List.ofFn (scroll 0 exTransition).displayType =
      [FADE, FADE, FADE, FADE, FADE, FADE] ∧
    List.ofFn (scroll 2 exTransition).NumberArray = [1, 2, 1, 2, 3, 4] ∧
    List.ofFn (scroll 2 exTransition).displayType =
      [BLANKED, BLANKED, FADE, FADE, FADE, FADE] := by
  decide

/-- Claim C4 counterexample: with `end = now` (= 5) no session is on display
(`isMessageOnDisplay` is false), yet `start` is a no-op because its guard is
the strict `_end < now`; `started` stays 0 instead of becoming `now`. -/
theorem start_boundary_cex :
    isMessageOnDisplay 5 { exTransition with endTime := 5 } = false ∧
    start 5 { exTransition with endTime := 5 } =
      { exTransition with endTime := 5 } ∧
    ({ exTransition with endTime := 5 } : TransitionState).started = 0 := by
  refine ⟨by decide, ?_, rfl⟩
  unfold start
  rw [if_neg (by dsimp only; omega)]

/-- Claim C4 (amended): whenever `end < now` (strictly — at `end = now` the
call does nothing), `start(now)` begins a new session: `started = now`,
`end = now + 2*effectIn + hold + 2*effectOut`, the live display-mode buffer
and scrollback flag are snapshotted into the saved state, the live
scrollback flag is cleared, and the digit buffers are untouched. -/
theorem start_begins_session (now : Nat) (s : TransitionState)
    (h : s.endTime < now)
    (hov : now + s.effectInDuration * 2 + s.holdDuration +
      s.effectOutDuration * 2 < MOD32) :
    (start now s).started = now ∧
    (start now s).endTime = now + s.effectInDuration * 2 + s.holdDuration +
      s.effectOutDuration * 2 ∧
    (start now s).savedDisplayType = s.displayType ∧
    (start now s).savedScrollback = s.scrollback ∧
    (start now s).scrollback = false ∧
    (start now s).NumberArray = s.NumberArray ∧
    (start now s).displayType = s.displayType ∧
    (start now s).regularDisplay = s.regularDisplay ∧
    (start now s).alternateDisplay = s.alternateDisplay := by
  unfold start saveCurrentDisplayType getEnd
  rw [if_pos h]
  dsimp only
  exact ⟨rfl, Nat.mod_eq_of_lt hov, rfl, rfl, rfl, rfl, rfl, rfl, rfl⟩

/-- Witness for `start_begins_session` starting a session at `now = 3000`
over an expired one. -/
theorem start_begins_session_witness :
    exTransition.endTime < 3000 ∧
    3000 + exTransition.effectInDuration * 2 + exTransition.holdDuration +
      exTransition.effectOutDuration * 2 < MOD32 ∧
    ((start 3000 exTransition).started = 3000 ∧
     (start 3000 exTransition).endTime = 3000 +
       exTransition.effectInDuration * 2 + exTransition.holdDuration +
       exTransition.effectOutDuration * 2 ∧
     (start 3000 exTransition).savedDisplayType = exTransition.displayType ∧
     (start 3000 exTransition).savedScrollback = exTransition.scrollback ∧
     (start 3000 exTransition).scrollback = false ∧
     (start 3000 exTransition).NumberArray = exTransition.NumberArray ∧
     (start 3000 exTransition).displayType = exTransition.displayType ∧
     (start 3000 exTransition).regularDisplay = exTransition.regularDisplay ∧
     (start 3000 exTransition).alternateDisplay =
       exTransition.alternateDisplay) :=
  ⟨by decide, by decide, start_begins_session 3000 exTransition (by decide)
    (by decide)⟩

/-- Claim C5: `isMessageOnDisplay(now)` holds exactly when `now < end` with
`end = started + 2*effectIn + hold + 2*effectOut`, and each animation
stepper returns true exactly when `isMessageOnDisplay(now)` does. -/
theorem isMessageOnDisplay_iff (now : Nat) (s : TransitionState)
    (hE : s.endTime = s.started + s.effectInDuration * 2 + s.holdDuration +
      s.effectOutDuration * 2) :
    (isMessageOnDisplay now s = true ↔
      now < s.started + s.effectInDuration * 2 + s.holdDuration +
        s.effectOutDuration * 2) ∧
    (scrollMsg now s).1 = isMessageOnDisplay now s ∧
    (scrambleMsg now s).1 = isMessageOnDisplay now s ∧
    (scrollInScrambleOut now s).1 = isMessageOnDisplay now s := by
  refine ⟨by simp [isMessageOnDisplay, hE], ?_, ?_, ?_⟩
  · unfold scrollMsg isMessageOnDisplay; split <;> simp_all
  · unfold scrambleMsg isMessageOnDisplay; split <;> simp_all
  · unfold scrollInScrambleOut isMessageOnDisplay; split <;> simp_all

/-- Witness for `isMessageOnDisplay_iff` on the 300/1000/300 session started
at 0 (`end = 2200`), plus the concrete boundary evaluations the
specification sketches. -/
theorem isMessageOnDisplay_iff_witness :
    exTransition.endTime = exTransition.started +
      exTransition.effectInDuration * 2 + exTransition.holdDuration +
      exTransition.effectOutDuration * 2 ∧
    ((isMessageOnDisplay 2199 exTransition = true ↔
       2199 < exTransition.started + exTransition.effectInDuration * 2 +
         exTransition.holdDuration + exTransition.effectOutDuration * 2) ∧
     (scrollMsg 2199 exTransition).1 = isMessageOnDisplay 2199 exTransition ∧
     (scrambleMsg 2199 exTransition).1 =
       isMessageOnDisplay 2199 exTransition ∧
     (scrollInScrambleOut 2199 exTransition).1 =
       isMessageOnDisplay 2199 exTransition) ∧
    isMessageOnDisplay 1899 exTransition = true ∧
    isMessageOnDisplay 2199 exTransition = true ∧
    isMessageOnDisplay 2200 exTransition = false :=
  ⟨rfl, isMessageOnDisplay_iff 2199 exTransition rfl, by decide, by decide,
    by decide⟩

/-- Claim C6: calling `start(now)` while a session is on display
(`now < end`) changes nothing at all — the whole state, including
`started`, `end`, both saved snapshots, both digit snapshots and the three
live globals, is left exactly as it was. -/
theorem start_noop_while_running (now : Nat) (s : TransitionState)
    (h : now < s.endTime) : start now s = s := by
  unfold start
  rw [if_neg (by omega)]

/-- Witness for `start_noop_while_running` at `now = 100` against the
running session ending at 2200. -/
theorem start_noop_while_running_witness :
    100 < exTransition.endTime ∧ start 100 exTransition = exTransition :=
  ⟨by decide, start_noop_while_running 100 exTransition (by decide)⟩

/-- Claim C7: `scramble(e, start, end)` with `start ≤ end ≤ 6` writes exactly
the digit positions in `[start, end)`, setting each position `i` to
`hash(e / 20 + i) % 10` (a value below 10), leaves every other digit
position and the whole display-mode buffer untouched, and is deterministic:
repeating the call with the same arguments changes nothing further. -/
theorem scramble_window_exact (e start endW : Nat) (s : TransitionState)
    (h1 : start ≤ endW) (h2 : endW ≤ 6) :
    (∀ i : Fin 6, start ≤ (i : Nat) → (i : Nat) < endW →
      (scramble e start endW s).NumberArray i =
        hash (e / 20 + (i : Nat)) % 10 ∧
      (scramble e start endW s).NumberArray i < 10) ∧
    (∀ i : Fin 6, (i : Nat) < start ∨ endW ≤ (i : Nat) →
      (scramble e start endW s).NumberArray i = s.NumberArray i) ∧
    (scramble e start endW s).displayType = s.displayType ∧
    scramble e start endW (scramble e start endW s) =
      scramble e start endW s := by
  refine ⟨?_, ?_, rfl, ?_⟩
  · intro i hi1 hi2
    unfold scramble
    dsimp only
    rw [if_pos ⟨hi1, hi2⟩]
    exact ⟨rfl, Nat.mod_lt _ (by omega)⟩
  · intro i hi
    unfold scramble
    dsimp only
    rw [if_neg (by omega)]
  · unfold scramble
    ext i <;> try rfl
    all_goals dsimp only
    all_goals split <;> rfl

/-- Witness for `scramble_window_exact` on the window `[2, 5)` the
specification singles out. -/
theorem scramble_window_exact_witness :
    2 ≤ 5 ∧ (5 : Nat) ≤ 6 ∧
    ((∀ i : Fin 6, 2 ≤ (i : Nat) → (i : Nat) < 5 →
       (scramble 40 2 5 exTransition).NumberArray i =
         hash (40 / 20 + (i : Nat)) % 10 ∧
       (scramble 40 2 5 exTransition).NumberArray i < 10) ∧
     (∀ i : Fin 6, (i : Nat) < 2 ∨ 5 ≤ (i : Nat) →
       (scramble 40 2 5 exTransition).NumberArray i =
         exTransition.NumberArray i) ∧
     (scramble 40 2 5 exTransition).displayType =
       exTransition.displayType ∧
     scramble 40 2 5 (scramble 40 2 5 exTransition) =
       scramble 40 2 5 exTransition) :=
  ⟨by decide, by decide,
    scramble_window_exact 40 2 5 exTransition (by decide) (by decide)⟩

/-- Claim C8: a `saveCurrentDisplayType()` immediately followed by
`restoreCurrentDisplayType()` returns the live display-mode buffer and the
live scrollback flag to exactly their prior values, even though the save
itself clears the live scrollback flag. -/
theorem saveRestore_roundtrip (s : TransitionState) :
    (restoreCurrentDisplayType (saveCurrentDisplayType s)).displayType =
      s.displayType ∧
    (restoreCurrentDisplayType (saveCurrentDisplayType s)).scrollback =
      s.scrollback ∧
    (saveCurrentDisplayType s).scrollback = false :=
  ⟨rfl, rfl, rfl⟩

end Ardunix
